import Mathlib

/-!
Shallow embedding of `src/lib/model/task.js` (the WatchTask entity).

The JavaScript entity is modelled as a Lean structure `Task`; every stateful
method becomes a pure function from the entity (plus an explicit environment
for network responses, the clock, and external library behaviour) to the new
entity together with the observable effects (emitted change events, outbound
HTTP requests).

External collaborators are parameters of the model:
- the SHA-256 hex digest (`crypto` module) is an arbitrary function
  `String → String`; `makeHash` concatenates the content-type header
  (or empty string) with the body (or empty string) before digesting,
  mirroring the two incremental `hash.update` calls in the source;
- the HTTP client (`request` module) is an environment value `FetchOutcome`
  giving its completion (transport error, or a response with status code,
  headers and body);
- `JSON.parse` (a JS builtin) is a predicate `jsonOk : Option String → Bool`
  saying whether parsing the body succeeds; in JS a failed parse throws;
- the clock `_Now()` is an explicit `now : Nat` (epoch seconds); the few
  `_Now()` calls inside one method invocation are modelled as a single
  reading.

The patch plugin modules (`lib/patch/…`) are repository code not present
under `src/`. Modelled from the spec: each patch is an opaque best-effort
transform invoked inside a try/catch whose exception is swallowed, so a
patch's only behaviour visible to this model is whether it throws; its
mutations of the entity are external and not modelled.
-/

namespace WatchTask

/-- The `cron` field holds either a cron expression (string) or a numeric
epoch / relative offset. -/
inductive CronVal where
  | str (s : String)
  | num (n : Nat)
deriving DecidableEq, Repr

/-- The `patches` input may be a single string (wrapped into a one-element
array by the constructor) or an array of patch names. -/
inductive PatchesVal where
  | str (s : String)
  | arr (l : List String)
deriving DecidableEq, Repr

/-- The `_counts` run statistics record `{ run, err, succ }`. -/
structure Counts where
  run : Nat
  err : Nat
  succ : Nat
deriving DecidableEq, Repr

/-- The `_last` record `{ succ, date }`; both fields start as `null`. -/
structure LastRun where
  succ : Option Bool
  date : Option Nat
deriving DecidableEq, Repr

/-- `Task.ACTIVE` -/
def ACTIVE : Nat := 0

/-- `Task.STOPPED` -/
def STOPPED : Nat := 1

/-- `Task.EXPIRED` -/
def EXPIRED : Nat := 2

/-- The WatchTask entity after construction. Fields that the JavaScript
object may leave `undefined` are `Option`s. -/
structure Task where
  name : String
  state : Nat
  url : String
  callback : Option String
  timeout : Option Nat
  hash : Option String
  urlTemplate : Option String
  callbackTemplate : Option String
  patches : Option (List String)
  cron : Option CronVal
  expireAt : Option Nat
  created : Nat
  updated : Nat
  _running : Bool
  _counts : Counts
  _last : LastRun
deriving DecidableEq, Repr

/-- The configuration record passed to the `Task` constructor; every field
may be absent (`undefined`). `_running`, `_counts` and `_last` appear
because `toJSON` output contains them; the constructor merges and then
unconditionally overwrites them. -/
structure TaskInput where
  name : Option String := none
  state : Option Nat := none
  url : Option String := none
  callback : Option String := none
  timeout : Option Nat := none
  hash : Option String := none
  urlTemplate : Option String := none
  callbackTemplate : Option String := none
  patches : Option PatchesVal := none
  cron : Option CronVal := none
  expireAt : Option Nat := none
  created : Option Nat := none
  updated : Option Nat := none
  _running : Option Bool := none
  _counts : Option Counts := none
  _last : Option LastRun := none
deriving DecidableEq, Repr

/-- `if (!this.state) this.state = Task.ACTIVE` (task.js lines 41-43):
a falsy state (absent or 0) becomes ACTIVE; ACTIVE is itself 0, so this is
the identity on present values. -/
def normState (s : Option Nat) : Nat :=
  match s with
  | none => ACTIVE
  | some n => if n = 0 then ACTIVE else n

/-- `if (typeof this.patches === 'string') this.patches = [this.patches]`
(task.js lines 47-49). -/
def normPatches (p : Option PatchesVal) : Option (List String) :=
  match p with
  | some (.str s) => some [s]
  | some (.arr l) => some l
  | none => none

/-- `if (typeof this.cron === 'number' && this.cron < 1000000)
this.cron += _Now()` (task.js lines 51-53). -/
def normCron (c : Option CronVal) (now : Nat) : Option CronVal :=
  match c with
  | some (.num n) => if n < 1000000 then some (.num (n + now)) else some (.num n)
  | c => c

/-- `if (this.expireAt && this.expireAt < 1000000) this.expireAt += _Now()`
(task.js lines 54-56); a falsy (0) value is left alone. -/
def normExpire (e : Option Nat) (now : Nat) : Option Nat :=
  match e with
  | some e => if e ≠ 0 ∧ e < 1000000 then some (e + now) else some e
  | none => none

/-- JS truthiness default, `if (!this.x) this.x = d`: an absent or zero
number becomes `d` (task.js lines 58-63). -/
def orElseNat (o : Option Nat) (d : Nat) : Nat :=
  match o with
  | some n => if n = 0 then d else n
  | none => d

/-- The `Task(task)` constructor (task.js lines 32-68): merge the input,
require `name` and `url` truthy, default `state` to ACTIVE when falsy
(absent or 0), wrap a string `patches` into an array, normalize a numeric
`cron` below 1,000,000 by adding `_Now()`, likewise a truthy `expireAt`,
default `created` to now and `updated` to `created`, and reset the
transients `_running`, `_counts`, `_last`. -/
def mkTask (inp : TaskInput) (now : Nat) : Except String Task :=
  match inp.name with
  | none => .error "name must has a value"
  | some nm =>
    if nm = "" then .error "name must has a value" else
    match inp.url with
    | none => .error "url must has a value"
    | some u =>
      if u = "" then .error "url must has a value" else
      .ok { name := nm, state := normState inp.state, url := u,
            callback := inp.callback, timeout := inp.timeout, hash := inp.hash,
            urlTemplate := inp.urlTemplate, callbackTemplate := inp.callbackTemplate,
            patches := normPatches inp.patches, cron := normCron inp.cron now,
            expireAt := normExpire inp.expireAt now,
            created := orElseNat inp.created now,
            updated := orElseNat inp.updated (orElseNat inp.created now),
            _running := false, _counts := ⟨0, 0, 0⟩, _last := ⟨none, none⟩ }

/-- `Task.prototype.toJSON` (task.js lines 87-99): the serialized mapping of
the listed sixteen keys. -/
def Task.toJSON (t : Task) : TaskInput :=
  { name := some t.name, state := some t.state, url := some t.url,
    callback := t.callback, timeout := t.timeout, hash := t.hash,
    urlTemplate := t.urlTemplate, callbackTemplate := t.callbackTemplate,
    patches := t.patches.map PatchesVal.arr, cron := t.cron,
    expireAt := t.expireAt, created := some t.created, updated := some t.updated,
    _running := some t._running, _counts := some t._counts, _last := some t._last }

/-- `makeHash(headers, body)` (task.js lines 296-301): the hex SHA-256
digest of `headers['content-type'] || ''` followed by `body || ''`.
Incrementally hashing the two chunks equals hashing their concatenation, so
the model digests the concatenation; the digest itself (the `crypto`
module) is the abstract parameter `sha256hex`. -/
def makeHash (sha256hex : String → String) (contentType : Option String)
    (body : Option String) : String :=
  sha256hex ((contentType.getD "") ++ (body.getD ""))

/-- The completion of one `request(...)` call: a transport error (truthy
`err`), or a response with its status code and the headers/body the source
reads (`date`, `content-type`, body). -/
inductive FetchOutcome where
  | fail
  | resp (statusCode : Nat) (date : Option String) (contentType : Option String)
      (body : Option String)
deriving DecidableEq, Repr

/-- Environment of one `run()` or `test()` invocation: the external
collaborators (digest function, HTTP completions, `JSON.parse` success
predicate, clock). -/
structure Env where
  sha256hex : String → String
  fetch : FetchOutcome
  cbResp : FetchOutcome
  jsonOk : Option String → Bool
  now : Nat

/-- A `'change'` event emitted by the entity. -/
inductive Ev where
  | change
deriving DecidableEq, Repr

/-- An outbound HTTP request issued during a run. -/
inductive Req where
  | get (url : String)
  | post (url : String)
deriving DecidableEq, Repr

/-- Result of one `run()` invocation: whether it started (the boolean the
method returns is `false` exactly when it did not), the entity afterwards,
the `'change'` events emitted in order, the outbound requests, whether an
exception (from `JSON.parse` in `_patch`) propagated out, how many times
the finalization step `upd` executed, and how many times `run` invoked the
completion callback it was given (the source never does: the body of
`Task.prototype.run` contains no call of its `cb` parameter, only the
comment "Add callback support, for runOnce..."). -/
structure RunResult where
  started : Bool
  task : Task
  events : List Ev
  requests : List Req
  threw : Bool
  updCount : Nat
  cbCalls : Nat
deriving Repr

/-- `Task.prototype._patch` (task.js lines 275-291): a no-op unless
`patches` is a non-empty array; otherwise `JSON.parse(body)` (a throw
propagates out — third component `true`), then each patch is attempted
inside try/catch with its failure swallowed (patch plugins are modelled
from the spec as opaque transforms, see the file comment), then
`updated = _Now()` and one `'change'` emission. -/
def Task._patch (t : Task) (body : Option String) (env : Env) :
    Task × List Ev × Bool :=
  match t.patches with
  | none => (t, [], false)
  | some [] => (t, [], false)
  | some (_ :: _) =>
    if env.jsonOk body then
      ({ t with updated := env.now }, [Ev.change], false)
    else (t, [], true)

/-- The local `upd(succ)` finalizer inside `run` (task.js lines 222-230):
clear `_running`, set `_last = {succ, date: now}`, increment `_counts.run`
and one of `_counts.succ` / `_counts.err`. -/
def updFinal (t : Task) (succ : Bool) (now : Nat) : Task :=
  { t with _running := false,
           _last := { succ := some succ, date := some now },
           _counts := { run := t._counts.run + 1,
                        err := if succ then t._counts.err else t._counts.err + 1,
                        succ := if succ then t._counts.succ + 1 else t._counts.succ } }

/-- The local `succ(headers, body, hash)` branch inside `run` (task.js
lines 214-220): store the hash, bump `updated`, emit `'change'`, run
`_patch` (whose `JSON.parse` throw would skip the final `upd(true)`), then
finalize. -/
def runSucc (t1 : Task) (env : Env) (h : String) (body : Option String)
    (reqs : List Req) : RunResult :=
  let t2 := { t1 with hash := some h, updated := env.now }
  let pr := t2._patch body env
  if pr.2.2 then
    { started := true, task := pr.1, events := Ev.change :: pr.2.1,
      requests := reqs, threw := true, updCount := 0, cbCalls := 0 }
  else
    { started := true, task := updFinal pr.1 true env.now,
      events := Ev.change :: pr.2.1, requests := reqs, threw := false,
      updCount := 1, cbCalls := 0 }

/-- `Task.prototype.run` (task.js lines 150-231). Single-flight guard,
GET of `url`, hash comparison, optional POST to `callback`, and the
branch-dependent finalization. -/
def Task.run (t : Task) (env : Env) : RunResult :=
  if t._running then
    { started := false, task := t, events := [], requests := [],
      threw := false, updCount := 0, cbCalls := 0 }
  else
    let t1 := { t with _running := true }
    match env.fetch with
    | .fail =>
      { started := true, task := updFinal t1 false env.now, events := [],
        requests := [Req.get t.url], threw := false, updCount := 1, cbCalls := 0 }
    | .resp code _ ct body =>
      if code ≠ 200 then
        { started := true, task := updFinal t1 false env.now, events := [],
          requests := [Req.get t.url], threw := false, updCount := 1, cbCalls := 0 }
      else
        let h := makeHash env.sha256hex ct body
        if t1.hash = some h then
          { started := true, task := updFinal t1 true env.now, events := [],
            requests := [Req.get t.url], threw := false, updCount := 1, cbCalls := 0 }
        else
          match t1.callback with
          | none => runSucc t1 env h body [Req.get t.url]
          | some cbUrl =>
            match env.cbResp with
            | .fail =>
              { started := true, task := updFinal t1 false env.now, events := [],
                requests := [Req.get t.url, Req.post cbUrl], threw := false,
                updCount := 1, cbCalls := 0 }
            | .resp c2 _ _ _ =>
              if c2 ≠ 200 then
                { started := true, task := updFinal t1 false env.now, events := [],
                  requests := [Req.get t.url, Req.post cbUrl], threw := false,
                  updCount := 1, cbCalls := 0 }
              else runSucc t1 env h body [Req.get t.url, Req.post cbUrl]

/-- Outcome reported through `test`'s completion callback. -/
inductive TestResult where
  | err
  | report (modified : Bool)
deriving DecidableEq, Repr

/-- `Task.prototype.test` (task.js lines 130-145): read-only probe; on a
200 response report `modified = (self.hash !== makeHash(headers, body))`
(a JS strict comparison of a possibly-`undefined` string with a string). -/
def Task.test (t : Task) (sha256hex : String → String) (fetch : FetchOutcome) :
    TestResult :=
  match fetch with
  | .fail => .err
  | .resp code _ ct body =>
    if code ≠ 200 then .err
    else .report (t.hash != some (makeHash sha256hex ct body))

/-- `Task.prototype._transit(newState)` (task.js lines 266-270): set
`state`, set `updated = _Now()`, emit `'change'`. -/
def Task._transit (t : Task) (newState : Nat) (now : Nat) : Task × List Ev :=
  ({ t with state := newState, updated := now }, [Ev.change])

/-- The model of the `CronJob` handle held in `_cronJob`: whether it is a
one-shot job (numeric `cron`) and whether it is currently started. -/
structure CronJobM where
  once : Bool
  running : Bool
deriving DecidableEq, Repr

/-- `Task.prototype.active` (task.js lines 236-241): when the state is not
ACTIVE, transition to ACTIVE and start a bound, non-running timer;
otherwise do nothing. -/
def Task.active (t : Task) (cj : Option CronJobM) (now : Nat) :
    Task × Option CronJobM × List Ev :=
  if t.state ≠ ACTIVE then
    let tr := t._transit ACTIVE now
    let cj2 := match cj with
      | some c => if !c.running then some { c with running := true } else some c
      | none => none
    (tr.1, cj2, tr.2)
  else (t, cj, [])

/-- `Task.prototype.stop` (task.js lines 246-251): when the state is not
STOPPED, transition to STOPPED and stop a bound running timer; otherwise
do nothing. -/
def Task.stop (t : Task) (cj : Option CronJobM) (now : Nat) :
    Task × Option CronJobM × List Ev :=
  if t.state ≠ STOPPED then
    let tr := t._transit STOPPED now
    let cj2 := match cj with
      | some c => if c.running then some { c with running := false } else some c
      | none => none
    (tr.1, cj2, tr.2)
  else (t, cj, [])

/-- `Task.prototype.expire` (task.js lines 256-261): when the state is not
EXPIRED, transition to EXPIRED and stop a bound running timer; otherwise
do nothing. -/
def Task.expire (t : Task) (cj : Option CronJobM) (now : Nat) :
    Task × Option CronJobM × List Ev :=
  if t.state ≠ EXPIRED then
    let tr := t._transit EXPIRED now
    let cj2 := match cj with
      | some c => if c.running then some { c with running := false } else some c
      | none => none
    (tr.1, cj2, tr.2)
  else (t, cj, [])

/-- `Task.prototype.sched` (task.js lines 104-125), reduced to the handle
it leaves in `_cronJob`: none when `cron` is falsy (absent, 0, or the empty
string); otherwise a job that is one-shot exactly when `cron` is numeric,
started exactly when `state === Task.ACTIVE`. -/
def Task.sched (t : Task) : Option CronJobM :=
  match t.cron with
  | none => none
  | some (.num 0) => none
  | some (.str "") => none
  | some (.num _) => some { once := true, running := t.state == ACTIVE }
  | some (.str _) => some { once := false, running := t.state == ACTIVE }

/-- The timer's fire callback installed by `sched` (task.js lines 115-119):
`self.run(function () { if (once) self.stop(); })`. The inner function is
the completion `run` would have to invoke when the run finishes; since
`run` never invokes its `cb` parameter (`RunResult.cbCalls` is 0 on every
path of `Task.run`), the conditional `stop` only executes if `cbCalls`
is positive. -/
def Task.fire (t : Task) (cj : CronJobM) (env : Env) :
    Task × Option CronJobM × List Ev :=
  let r := t.run env
  if r.cbCalls > 0 && cj.once then
    let s := r.task.stop (some cj) env.now
    (s.1, s.2.1, r.events ++ s.2.2)
  else (r.task, some cj, r.events)

/-- The error condition `err_ || res_.statusCode !== 200` applied to the
callback POST's completion (task.js line 198). -/
def cbFails : FetchOutcome → Bool
  | .fail => true
  | .resp c _ _ _ => c != 200

/-! Concrete instances used by counterexamples and witnesses. -/

/-- A placeholder entity (only used as the default of `Option.getD` on
constructor results that are proved to be `.ok`). -/
def taskDefault : Task :=
  { name := "", state := 0, url := "", callback := none, timeout := none,
    hash := none, urlTemplate := none, callbackTemplate := none, patches := none,
    cron := none, expireAt := none, created := 0, updated := 0,
    _running := false, _counts := ⟨0, 0, 0⟩, _last := ⟨none, none⟩ }

/-- A constant digest function: every (content-type, body) pair hashes to
`"H"`. -/
def shaH : String → String := fun _ => "H"

/-- `new Task({name: 't1', url: 'http://example'})` at epoch 1000. -/
def tBase : Task :=
  (mkTask { name := some "t1", url := some "http://example" } 1000).toOption.getD taskDefault

/-- An environment whose fetch yields a 200 response with body `"body"`,
observed at epoch 1500. -/
def envOk : Env :=
  { sha256hex := shaH, fetch := .resp 200 none (some "text/plain") (some "body"),
    cbResp := .fail, jsonOk := fun _ => true, now := 1500 }

/-! Theorems. First, helper lemmas about the constructor's normalization
steps. -/

theorem normState_some (n : Nat) : normState (some n) = n := by
  by_cases h : n = 0 <;> simp [normState, h, ACTIVE]

theorem normPatches_map (p : Option (List String)) :
    normPatches (p.map PatchesVal.arr) = p := by
  cases p <;> rfl

theorem normCron_absolute (c : Option CronVal) (now : Nat)
    (h : ∀ n, c = some (CronVal.num n) → 1000000 ≤ n) : normCron c now = c := by
  cases hc : c with
  | none => rfl
  | some v =>
    cases v with
    | str s => rfl
    | num n => simp [normCron, Nat.not_lt.mpr (h n hc)]

theorem normExpire_absolute (e : Option Nat) (now : Nat)
    (h : ∀ x, e = some x → x = 0 ∨ 1000000 ≤ x) : normExpire e now = e := by
  cases he : e with
  | none => rfl
  | some x =>
    rcases h x he with h0 | h0
    · simp [normExpire, h0]
    · simp [normExpire, Nat.not_lt.mpr h0]

theorem orElseNat_of_ne (n d : Nat) (h : n ≠ 0) : orElseNat (some n) d = n := by
  simp [orElseNat, h]

/-- C4: a `run()` call finding `_running` already true returns `false`
immediately, issues no HTTP request, emits nothing and leaves every entity
field unchanged — in particular `_counts` and `_last` record nothing. -/
theorem c4_single_flight (t : Task) (env : Env) (h : t._running = true) :
    t.run env = { started := false, task := t, events := [], requests := [],
                  threw := false, updCount := 0, cbCalls := 0 } := by
  simp [Task.run, h]

theorem c4_single_flight_witness :
    { tBase with _running := true }.run envOk =
      { started := false, task := { tBase with _running := true }, events := [],
        requests := [], threw := false, updCount := 0, cbCalls := 0 } :=
  c4_single_flight { tBase with _running := true } envOk (by decide)

/-- C10: when the stored `hash` is absent, a 200 probe always reports
`modified = true`, because `undefined` never strictly equals the
hex-encoded digest string. -/
theorem c10_first_observation_modified (t : Task) (f : String → String)
    (d ct body : Option String) (h : t.hash = none) :
    t.test f (.resp 200 d ct body) = .report true := by
  simp [Task.test, h]

theorem c10_first_observation_modified_witness :
    tBase.hash = none ∧
    tBase.test shaH (.resp 200 none (some "text/plain") (some "body")) = .report true :=
  ⟨by decide, c10_first_observation_modified tBase shaH none (some "text/plain")
    (some "body") (by decide)⟩

/-- C8: construction with a numeric `cron` stores `cron + now` when the
value is below 1,000,000 and the value unchanged otherwise. -/
theorem c8_cron_normalization (inp : TaskInput) (now c : Nat) (nm u : String)
    (h1 : inp.name = some nm) (h2 : nm ≠ "")
    (h3 : inp.url = some u) (h4 : u ≠ "")
    (h5 : inp.cron = some (.num c)) :
    (mkTask inp now).map Task.cron =
      .ok (some (.num (if c < 1000000 then c + now else c))) := by
  simp only [mkTask, h1, h3, if_neg h2, if_neg h4, h5, Except.map, normCron]
  split <;> simp [*]

theorem c8_cron_normalization_witness :
    (mkTask { name := some "t1", url := some "http://example",
              cron := some (.num 30) } 1000).map Task.cron =
      .ok (some (.num (if 30 < 1000000 then 30 + 1000 else 30))) ∧
    (mkTask { name := some "t1", url := some "http://example",
              cron := some (.num 2000000) } 1000).map Task.cron =
      .ok (some (.num (if 2000000 < 1000000 then 2000000 + 1000 else 2000000))) :=
  ⟨c8_cron_normalization _ 1000 30 "t1" "http://example" rfl (by decide) rfl
      (by decide) rfl,
   c8_cron_normalization _ 1000 2000000 "t1" "http://example" rfl (by decide) rfl
      (by decide) rfl⟩

/-- C6: a run whose fetched (content-type, body) pair hashes to the stored
`hash` leaves `hash` and `updated` unchanged and emits no change event, yet
increments `_counts.run` and `_counts.succ` and records `_last.succ = true`
with `_last.date = now`. -/
theorem c6_nochange (t : Task) (env : Env) (d ct body : Option String)
    (h0 : t._running = false)
    (h1 : env.fetch = .resp 200 d ct body)
    (h2 : t.hash = some (makeHash env.sha256hex ct body)) :
    (t.run env).task.hash = t.hash ∧
    (t.run env).task.updated = t.updated ∧
    (t.run env).events = [] ∧
    (t.run env).task._counts.run = t._counts.run + 1 ∧
    (t.run env).task._counts.succ = t._counts.succ + 1 ∧
    (t.run env).task._counts.err = t._counts.err ∧
    (t.run env).task._last = ⟨some true, some env.now⟩ := by
  simp [Task.run, h0, h1, h2, updFinal]

theorem c6_nochange_witness :
    ({ tBase with hash := some "H" }.run envOk).task.hash =
        { tBase with hash := some "H" }.hash ∧
    ({ tBase with hash := some "H" }.run envOk).task.updated =
        { tBase with hash := some "H" }.updated ∧
    ({ tBase with hash := some "H" }.run envOk).events = [] ∧
    ({ tBase with hash := some "H" }.run envOk).task._counts.run =
        { tBase with hash := some "H" }._counts.run + 1 ∧
    ({ tBase with hash := some "H" }.run envOk).task._counts.succ =
        { tBase with hash := some "H" }._counts.succ + 1 ∧
    ({ tBase with hash := some "H" }.run envOk).task._counts.err =
        { tBase with hash := some "H" }._counts.err ∧
    ({ tBase with hash := some "H" }.run envOk).task._last = ⟨some true, some envOk.now⟩ :=
  c6_nochange { tBase with hash := some "H" } envOk none (some "text/plain")
    (some "body") (by decide) rfl (by decide)

/-- C5: a run that detects a content change but whose callback POST fails
(transport error or non-200) leaves `hash` and `updated` unchanged, emits
no change event, increments `_counts.err` (and `run`, but not `succ`), and
records `_last.succ = false`; the POST was attempted. -/
theorem c5_callback_failure (t : Task) (env : Env) (d ct body : Option String)
    (cu : String)
    (h0 : t._running = false)
    (h1 : env.fetch = .resp 200 d ct body)
    (h2 : t.hash ≠ some (makeHash env.sha256hex ct body))
    (h3 : t.callback = some cu)
    (h4 : cbFails env.cbResp = true) :
    (t.run env).task.hash = t.hash ∧
    (t.run env).task.updated = t.updated ∧
    (t.run env).events = [] ∧
    (t.run env).task._counts.run = t._counts.run + 1 ∧
    (t.run env).task._counts.err = t._counts.err + 1 ∧
    (t.run env).task._counts.succ = t._counts.succ ∧
    (t.run env).task._last = ⟨some false, some env.now⟩ ∧
    (t.run env).requests = [Req.get t.url, Req.post cu] := by
  cases hcb : env.cbResp with
  | fail =>
    simp [Task.run, h0, h1, h2, h3, hcb, updFinal]
  | resp c2 d2 ct2 b2 =>
    have hc2 : c2 ≠ 200 := by
      simp [cbFails, hcb] at h4
      exact_mod_cast h4
    simp [Task.run, h0, h1, h2, h3, hcb, hc2, updFinal]

theorem c5_callback_failure_witness :
    ({ tBase with callback := some "http://cb" }.run envOk).task.hash =
        { tBase with callback := some "http://cb" }.hash ∧
    ({ tBase with callback := some "http://cb" }.run envOk).task.updated =
        { tBase with callback := some "http://cb" }.updated ∧
    ({ tBase with callback := some "http://cb" }.run envOk).events = [] ∧
    ({ tBase with callback := some "http://cb" }.run envOk).task._counts.run =
        { tBase with callback := some "http://cb" }._counts.run + 1 ∧
    ({ tBase with callback := some "http://cb" }.run envOk).task._counts.err =
        { tBase with callback := some "http://cb" }._counts.err + 1 ∧
    ({ tBase with callback := some "http://cb" }.run envOk).task._counts.succ =
        { tBase with callback := some "http://cb" }._counts.succ ∧
    ({ tBase with callback := some "http://cb" }.run envOk).task._last =
        ⟨some false, some envOk.now⟩ ∧
    ({ tBase with callback := some "http://cb" }.run envOk).requests =
        [Req.get { tBase with callback := some "http://cb" }.url, Req.post "http://cb"] :=
  c5_callback_failure { tBase with callback := some "http://cb" } envOk none
    (some "text/plain") (some "body") "http://cb" (by decide) rfl (by decide) rfl
    (by decide)

/-- C9: each of `active`, `stop`, `expire` is idempotent — a call targeting
the current state returns the entity, timer handle and event list
unchanged; a call that changes state returns the entity with only `state`
and `updated` (set to now) modified, and exactly one change event. -/
theorem c9_transitions_idempotent (t : Task) (cj : Option CronJobM) (now : Nat) :
    (t.state = ACTIVE → t.active cj now = (t, cj, [])) ∧
    (t.state ≠ ACTIVE →
       (t.active cj now).1 = { t with state := ACTIVE, updated := now } ∧
       (t.active cj now).2.2 = [Ev.change]) ∧
    (t.state = STOPPED → t.stop cj now = (t, cj, [])) ∧
    (t.state ≠ STOPPED →
       (t.stop cj now).1 = { t with state := STOPPED, updated := now } ∧
       (t.stop cj now).2.2 = [Ev.change]) ∧
    (t.state = EXPIRED → t.expire cj now = (t, cj, [])) ∧
    (t.state ≠ EXPIRED →
       (t.expire cj now).1 = { t with state := EXPIRED, updated := now } ∧
       (t.expire cj now).2.2 = [Ev.change]) := by
  refine ⟨fun h => ?_, fun h => ?_, fun h => ?_, fun h => ?_, fun h => ?_, fun h => ?_⟩ <;>
    simp [Task.active, Task.stop, Task.expire, Task._transit, h]

theorem c9_transitions_idempotent_witness :
    (tBase.active none 5 = (tBase, none, [])) ∧
    ({ tBase with state := STOPPED }.active none 5).1 =
      { tBase with state := ACTIVE, updated := 5 } ∧
    ({ tBase with state := STOPPED }.stop none 5 =
      ({ tBase with state := STOPPED }, none, [])) :=
  ⟨(c9_transitions_idempotent tBase none 5).1 (by decide),
   by
     have h2 := ((c9_transitions_idempotent { tBase with state := STOPPED } none 5).2.1
       (by decide)).1
     simpa using h2,
   (c9_transitions_idempotent { tBase with state := STOPPED } none 5).2.2.1 rfl⟩

/-- `tBase` after one successful change-detecting run (at epoch 1500):
its `_counts` are `{run: 1, err: 0, succ: 1}` and `_last` is set. -/
def c1T1 : Task := (tBase.run envOk).task

/-- `c1T1` reconstructed from its own serialized form at epoch 2000. -/
def c1T2 : Task := (mkTask c1T1.toJSON 2000).toOption.getD taskDefault

/-- C1 counterexample: reconstruction from `toJSON` output does NOT
preserve `_counts` and `_last` — the constructor (task.js lines 65-67)
unconditionally resets them — so the claim fails on an entity that has
completed one run. -/
theorem c1_roundtrip_counterexample :
    (mkTask c1T1.toJSON 2000).toOption.isSome = true ∧
    c1T1._counts = ⟨1, 0, 1⟩ ∧
    c1T1._last = ⟨some true, some 1500⟩ ∧
    c1T2._counts = ⟨0, 0, 0⟩ ∧
    c1T2._last = ⟨none, none⟩ ∧
    c1T2._counts ≠ c1T1._counts := by decide

/-- C1 as amended: reconstruction from `toJSON` output preserves every
serialized field except the transients `_running`, `_counts`, `_last`,
which restart at `false`, `{0,0,0}`, `{null,null}` — given that the stored
`created`/`updated` are nonzero and any stored numeric `cron`/`expireAt`
is already absolute (≥ 1,000,000, or 0 for `expireAt`), so that the
constructor's truthiness defaults and relative-offset normalization do not
re-fire. -/
theorem c1_roundtrip (t : Task) (now2 : Nat)
    (h1 : t.name ≠ "") (h2 : t.url ≠ "")
    (h3 : t.created ≠ 0) (h4 : t.updated ≠ 0)
    (h5 : ∀ n, t.cron = some (CronVal.num n) → 1000000 ≤ n)
    (h6 : ∀ e, t.expireAt = some e → e = 0 ∨ 1000000 ≤ e) :
    mkTask t.toJSON now2 =
      .ok { t with _running := false, _counts := ⟨0, 0, 0⟩, _last := ⟨none, none⟩ } := by
  simp only [mkTask, Task.toJSON, if_neg h1, if_neg h2, normState_some,
    normPatches_map, normCron_absolute _ _ h5, normExpire_absolute _ _ h6,
    orElseNat_of_ne _ _ h3, orElseNat_of_ne _ _ h4]

theorem c1_roundtrip_witness :
    mkTask c1T1.toJSON 3000 =
      .ok { c1T1 with _running := false, _counts := ⟨0, 0, 0⟩, _last := ⟨none, none⟩ } :=
  c1_roundtrip c1T1 3000 (by decide) (by decide) (by decide) (by decide)
    (by intro n hn
        have hc : c1T1.cron = none := by decide
        rw [hc] at hn
        exact Option.noConfusion hn)
    (by intro e he
        have hc : c1T1.expireAt = none := by decide
        rw [hc] at he
        exact Option.noConfusion he)

/-- `new Task({name: 't1', url: 'http://example', patches: ['p']})` at
epoch 1000. -/
def tPatch : Task :=
  (mkTask { name := some "t1", url := some "http://example",
            patches := some (.arr ["p"]) } 1000).toOption.getD taskDefault

/-- An environment whose fetch yields a 200 response whose body is the
single character `"{"`, which is not valid JSON — `JSON.parse` throws on
it — so `jsonOk` reports failure. -/
def envBadJson : Env :=
  { sha256hex := shaH, fetch := .resp 200 none (some "text/plain") (some "\x7b"),
    cbResp := .fail, jsonOk := fun _ => false, now := 1500 }

/-- C2 counterexample: on the success branch with non-empty `patches` and a
body `JSON.parse` rejects, the exception from `_patch` propagates before
`upd` runs — the started invocation finalizes zero times, `_running` stays
true and `_counts`/`_last` record nothing. -/
theorem c2_finalize_counterexample :
    (tPatch.run envBadJson).started = true ∧
    (tPatch.run envBadJson).threw = true ∧
    (tPatch.run envBadJson).updCount = 0 ∧
    (tPatch.run envBadJson).task._running = true ∧
    (tPatch.run envBadJson).task._counts = tPatch._counts ∧
    (tPatch.run envBadJson).task._last = tPatch._last := by decide

/-- C2 as amended: an invocation of `run()` that starts executes the
finalization step exactly once — clearing `_running`, recording
`_last = {succ, date: now}`, incrementing `_counts.run` and exactly one of
`_counts.succ`/`_counts.err` — unless the success path reaches `_patch`
with non-empty `patches` and a body that fails to parse as JSON, in which
case the parse exception propagates and finalization never executes
(`_running` stays true). -/
theorem c2_finalize_once (t : Task) (env : Env) (h0 : t._running = false) :
    ((t.run env).threw = false →
      (t.run env).updCount = 1 ∧
      (t.run env).task._running = false ∧
      (t.run env).task._last.date = some env.now ∧
      (t.run env).task._counts.run = t._counts.run + 1 ∧
      (((t.run env).task._counts.succ = t._counts.succ + 1 ∧
        (t.run env).task._counts.err = t._counts.err ∧
        (t.run env).task._last.succ = some true) ∨
       ((t.run env).task._counts.err = t._counts.err + 1 ∧
        (t.run env).task._counts.succ = t._counts.succ ∧
        (t.run env).task._last.succ = some false))) ∧
    ((t.run env).threw = true →
      (t.run env).updCount = 0 ∧ (t.run env).task._running = true) := by
  cases hf : env.fetch with
  | fail => simp [Task.run, h0, hf, updFinal]
  | resp code d ct body =>
    by_cases hc : code = 200
    · subst hc
      by_cases hh : t.hash = some (makeHash env.sha256hex ct body)
      · simp [Task.run, h0, hf, hh, updFinal]
      · cases hcb : t.callback with
        | none =>
          cases hp : t.patches with
          | none => simp [Task.run, h0, hf, hh, hcb, runSucc, Task._patch, hp, updFinal]
          | some l =>
            cases l with
            | nil => simp [Task.run, h0, hf, hh, hcb, runSucc, Task._patch, hp, updFinal]
            | cons p ps =>
              by_cases hj : env.jsonOk body = true
              · simp [Task.run, h0, hf, hh, hcb, runSucc, Task._patch, hp, hj, updFinal]
              · simp [Task.run, h0, hf, hh, hcb, runSucc, Task._patch, hp, hj, updFinal]
        | some cu =>
          cases hcr : env.cbResp with
          | fail => simp [Task.run, h0, hf, hh, hcb, hcr, updFinal]
          | resp c2 d2 ct2 b2 =>
            by_cases hc2 : c2 = 200
            · subst hc2
              cases hp : t.patches with
              | none =>
                simp [Task.run, h0, hf, hh, hcb, hcr, runSucc, Task._patch, hp, updFinal]
              | some l =>
                cases l with
                | nil =>
                  simp [Task.run, h0, hf, hh, hcb, hcr, runSucc, Task._patch, hp, updFinal]
                | cons p ps =>
                  by_cases hj : env.jsonOk body = true
                  · simp [Task.run, h0, hf, hh, hcb, hcr, runSucc, Task._patch, hp, hj,
                      updFinal]
                  · simp [Task.run, h0, hf, hh, hcb, hcr, runSucc, Task._patch, hp, hj,
                      updFinal]
            · simp [Task.run, h0, hf, hh, hcb, hcr, hc2, updFinal]
    · simp [Task.run, h0, hf, hc, updFinal]

theorem c2_finalize_once_witness :
    ((tBase.run envOk).threw = false →
      (tBase.run envOk).updCount = 1 ∧
      (tBase.run envOk).task._running = false ∧
      (tBase.run envOk).task._last.date = some envOk.now ∧
      (tBase.run envOk).task._counts.run = tBase._counts.run + 1 ∧
      (((tBase.run envOk).task._counts.succ = tBase._counts.succ + 1 ∧
        (tBase.run envOk).task._counts.err = tBase._counts.err ∧
        (tBase.run envOk).task._last.succ = some true) ∨
       ((tBase.run envOk).task._counts.err = tBase._counts.err + 1 ∧
        (tBase.run envOk).task._counts.succ = tBase._counts.succ ∧
        (tBase.run envOk).task._last.succ = some false))) ∧
    ((tBase.run envOk).threw = true →
      (tBase.run envOk).updCount = 0 ∧ (tBase.run envOk).task._running = true) :=
  c2_finalize_once tBase envOk (by decide)

/-- C7 counterexample: a change-detecting run with no callback and
non-empty `patches`, whose body fails to parse as JSON, stores the new
hash but emits ONE change notification (not two) and does not increment
`_counts.succ` — the parse exception aborts the patch pipeline and skips
finalization. -/
theorem c7_notify_counterexample :
    tPatch.callback = none ∧
    tPatch.patches = some ["p"] ∧
    tPatch.hash ≠ some (makeHash envBadJson.sha256hex (some "text/plain") (some "\x7b")) ∧
    (tPatch.run envBadJson).task.hash = some "H" ∧
    (tPatch.run envBadJson).events = [Ev.change] ∧
    (tPatch.run envBadJson).task._counts.succ = tPatch._counts.succ := by decide

/-- C7 as amended: a change-detecting run with no callback stores the new
hash, sets `updated = now`, increments `_counts.succ` (and `run`), and
emits exactly one change notification when `patches` is empty or absent,
or exactly two when `patches` is non-empty — provided that, when `patches`
is non-empty, the fetched body parses as JSON (otherwise the parse
exception aborts after the first notification and finalization is
skipped). -/
theorem c7_success_notifications (t : Task) (env : Env) (d ct body : Option String)
    (h0 : t._running = false)
    (h1 : env.fetch = .resp 200 d ct body)
    (h2 : t.hash ≠ some (makeHash env.sha256hex ct body))
    (h3 : t.callback = none)
    (h4 : ∀ p ps, t.patches = some (p :: ps) → env.jsonOk body = true) :
    (t.run env).task.hash = some (makeHash env.sha256hex ct body) ∧
    (t.run env).task.updated = env.now ∧
    (t.run env).task._counts.succ = t._counts.succ + 1 ∧
    (t.run env).task._counts.run = t._counts.run + 1 ∧
    (t.run env).events = (match t.patches with
      | some (_ :: _) => [Ev.change, Ev.change]
      | _ => [Ev.change]) := by
  cases hp : t.patches with
  | none => simp [Task.run, h0, h1, h2, h3, runSucc, Task._patch, hp, updFinal]
  | some l =>
    cases l with
    | nil => simp [Task.run, h0, h1, h2, h3, runSucc, Task._patch, hp, updFinal]
    | cons p ps =>
      have hj := h4 p ps hp
      simp [Task.run, h0, h1, h2, h3, runSucc, Task._patch, hp, hj, updFinal]

theorem c7_success_notifications_witness :
    (tPatch.run envOk).task.hash =
      some (makeHash envOk.sha256hex (some "text/plain") (some "body")) ∧
    (tPatch.run envOk).task.updated = envOk.now ∧
    (tPatch.run envOk).task._counts.succ = tPatch._counts.succ + 1 ∧
    (tPatch.run envOk).task._counts.run = tPatch._counts.run + 1 ∧
    (tPatch.run envOk).events = (match tPatch.patches with
      | some (_ :: _) => [Ev.change, Ev.change]
      | _ => [Ev.change]) :=
  c7_success_notifications tPatch envOk none (some "text/plain") (some "body")
    (by decide) rfl (by decide) (by decide) (fun p ps _ => rfl)

/-- `new Task({name: 't1', url: 'http://example', cron: 30})` at epoch
1000 — the spec's one-shot example; its stored `cron` is 1030. -/
def tCron : Task :=
  (mkTask { name := some "t1", url := some "http://example",
            cron := some (.num 30) } 1000).toOption.getD taskDefault

/-- C3: `sched` installs a started one-shot timer for this task, but when
it fires and the run completes (successfully: `threw = false`,
finalization ran), `run` never invokes the completion in which `sched`
placed the `stop()` call (`cbCalls = 0`), so the state remains ACTIVE and
never becomes STOPPED — contradicting the claim (and the source's own
intent, marked by the "Add callback support, for runOnce..." TODO). -/
theorem c3_oneshot_not_stopped :
    tCron.cron = some (.num 1030) ∧
    tCron.sched = some { once := true, running := true } ∧
    (tCron.run envOk).started = true ∧
    (tCron.run envOk).threw = false ∧
    (tCron.run envOk).updCount = 1 ∧
    (tCron.run envOk).cbCalls = 0 ∧
    (tCron.fire { once := true, running := true } envOk).1.state = ACTIVE ∧
    (tCron.fire { once := true, running := true } envOk).1.state ≠ STOPPED := by
  decide

end WatchTask
